import Mathlib

/-!
Shallow embedding of the moneyfornothin retrieval-augmented chat pipeline
(src/app.py and src/appTrulens.py), together with proofs about the claims of
the specification.  External collaborators are modelled explicitly: the
completion service is a function from model id and prompt to a result or an
error (the caught Python exception), and the document-chunk store is the row
list that the SELECT statements range over (wrapped in Except where the
source wraps the call in try/except).
-/

set_option maxRecDepth 8000

/-- One message of the chat history: a role (user or assistant) and content. -/
structure Turn where
  role : String
  content : String
  deriving DecidableEq

/-- A row of DOCS_CHUNKS_TABLE as the apps consume it (SELECT *): the CHUNK
text, the RELATIVE_PATH of the source document and the CATEGORY label. -/
structure Chunk where
  CHUNK : String
  RELATIVE_PATH : String
  CATEGORY : String
  deriving DecidableEq

/-- External completion service (snowflake.cortex Complete): model id and
prompt to generated text; the error case models the raised exception that the
apps catch. -/
abbrev CompletionSvc := String → String → Except String String

/-- The session-state fields of src/app.py that the pipeline reads or writes
(model_name, category_value, use_context, chat_history, slide_window). -/
structure AppState where
  model_name : String
  category_value : String
  use_context : Bool
  chat_history : List Turn
  slide_window : Nat
  deriving DecidableEq

def roleUser : String := "user"

def roleAssistant : String := "assistant"

def catALL : String := "ALL"

/-- Separator of chunk texts inside the prompt (Python join on a blank line). -/
def chunkSep : String := "\n\n"

/-- The fixed fallback message of src/app.py answer_question and of
src/appTrulens.py IRS_RAG.generate_completion. -/
def apology : String := "Sorry, there was an error processing your question."

/-- src/app.py get_chat_history: the last slide_window messages of the stored
chat history.  Python max(0, len - slide_window) is Nat subtraction here. -/
def get_chat_history (chat_history : List Turn) (slide_window : Nat) : List Turn :=
  chat_history.drop (chat_history.length - slide_window)

def histSep : String := ", "

def roleSep : String := ": "

/-- Rendering of the chat-history list interpolated into the summarization
prompt.  Python formats the list of dicts via str; that textual rendering is
abstracted as a role-content join, and every property proved here treats it
as opaque. -/
def render_history (h : List Turn) : String :=
  String.intercalate histSep (h.map (fun t => t.role ++ roleSep ++ t.content))

def summary_prompt_pre : String := "\n    Summarize the following chat history and question to form a concise query:\n    CHAT HISTORY: "

def summary_prompt_mid : String := "\n    QUESTION: "

def summary_prompt_tail : String := "\n    "

/-- The condensation prompt of src/app.py summarize_question_with_history. -/
def summary_prompt (chat_history : List Turn) (question : String) : String :=
  summary_prompt_pre ++ render_history chat_history ++ summary_prompt_mid ++ question ++ summary_prompt_tail

/-- src/app.py summarize_question_with_history: call the completion service on
the condensation prompt; on failure fall back to the raw question. -/
def summarize_question_with_history (svc : CompletionSvc) (model : String)
    (chat_history : List Turn) (question : String) : String :=
  match svc model (summary_prompt chat_history question) with
  | Except.ok summary => summary
  | Except.error _ => question

/-- src/app.py get_similar_chunks_search_service: a SELECT over
DOCS_CHUNKS_TABLE, filtered by exact category equality unless the filter is
ALL, capped by LIMIT 3.  The query argument appears nowhere in the SQL.  On a
store error the except branch returns the empty list. -/
def get_similar_chunks_search_service (store : Except String (List Chunk))
    (category_value : String) (query : String) : List Chunk :=
  match store with
  | Except.error _ => []
  | Except.ok rows =>
    if category_value = catALL then rows.take 3
    else (rows.filter (fun r => r.CATEGORY == category_value)).take 3

/-- The retrieval-query selection inside src/app.py create_prompt (lines
131-137): with an empty windowed history the raw question, otherwise the
summarizer's output. -/
def retrieval_query (svc : CompletionSvc) (model : String)
    (chat_history : List Turn) (question : String) : String :=
  if chat_history.isEmpty then question
  else summarize_question_with_history svc model chat_history question

/-- The chunk list retrieved inside src/app.py create_prompt. -/
def chunks_used (svc : CompletionSvc) (store : Except String (List Chunk))
    (st : AppState) (question : String) : List Chunk :=
  get_similar_chunks_search_service store st.category_value
    (retrieval_query svc st.model_name (get_chat_history st.chat_history st.slide_window) question)

def app_prompt_pre : String := "\n    You are an expert IRS tax assistant with a deep understanding of IRS guidelines and general U.S. tax laws.\n    \n    CONTEXT:\n    "

def app_prompt_mid : String := "\n\n    QUESTION:\n    "

def app_prompt_tail : String := "\n\n    INSTRUCTIONS:\n    - Provide clear, concise, and authoritative answers.\n    - Do not invent information.\n    - If relevant, recommend IRS forms or publications.\n    - If context is insufficient, fall back on your expert knowledge.\n    "

/-- src/app.py create_prompt: retrieve (via the summarized query when history
is nonempty), join the chunk texts with a blank line, collect the distinct
RELATIVE_PATH values (a Python set, modelled as dedup) and splice context and
question into the fixed template. -/
def create_prompt (svc : CompletionSvc) (store : Except String (List Chunk))
    (st : AppState) (question : String) : String × List String :=
  let context_chunks := chunks_used svc store st question
  let prompt_context := String.intercalate chunkSep (context_chunks.map Chunk.CHUNK)
  let relative_paths := (context_chunks.map Chunk.RELATIVE_PATH).dedup
  (app_prompt_pre ++ prompt_context ++ app_prompt_mid ++ question ++ app_prompt_tail, relative_paths)

/-- src/app.py answer_question: build the prompt, call the completion service;
on failure return the fixed apology and an empty path list. -/
def answer_question (svc : CompletionSvc) (store : Except String (List Chunk))
    (st : AppState) (question : String) : String × List String :=
  let pr := create_prompt svc store st question
  match svc st.model_name pr.1 with
  | Except.ok response => (response, pr.2)
  | Except.error _ => (apology, [])

/-- The user-turn append done by src/app.py main (line 190) before
answer_question is called. -/
def push_user (st : AppState) (question : String) : AppState :=
  { st with chat_history := st.chat_history ++ [{ role := roleUser, content := question }] }

/-- One chat turn of src/app.py main (lines 189-206): append the user turn,
answer, then append an assistant turn carrying whatever answer_question
returned; yields the new state, the response and the related-document paths. -/
def main_turn (svc : CompletionSvc) (store : Except String (List Chunk))
    (st : AppState) (question : String) : AppState × String × List String :=
  let st1 := push_user st question
  let r := answer_question svc store st1 question
  ({ st1 with chat_history := st1.chat_history ++ [{ role := roleAssistant, content := r.1 }] }, r.1, r.2)

/-- The raw list append performed on st.session_state.chat_history by
src/app.py main: no trimming ever happens on the stored list. -/
def history_append (h : List Turn) (t : Turn) : List Turn := h ++ [t]

/-- src/appTrulens.py CortexSearchRetriever.retrieve: category-filtered,
LIMIT-capped SELECT over the same table; the query argument appears nowhere
in the SQL. -/
def CortexSearchRetriever.retrieve (query : String) (category_value : String)
    (limit_to_retrieve : Nat) (store : List Chunk) : List Chunk :=
  if category_value = catALL then store.take limit_to_retrieve
  else (store.filter (fun r => r.CATEGORY == category_value)).take limit_to_retrieve

def trulens_ctx_pre : String := "\n            You are an expert IRS tax assistant with a deep understanding of IRS guidelines and general U.S. tax laws.\n            \n            Below is CONTEXT extracted from IRS documents. Use it to assist in answering the QUESTION. \n            If the context does not fully answer the question, rely on your general knowledge of U.S. tax regulations.\n\n            CONTEXT:\n            "

def trulens_ctx_mid : String := "\n\n            QUESTION:\n            "

def trulens_ctx_tail : String := "\n\n            INSTRUCTIONS:\n            - Provide clear, concise, and authoritative answers.\n            - Do not invent information.\n            - If relevant, recommend IRS forms or publications.\n            - If context is insufficient, fall back on your expert knowledge of the IRS taxation system.\n            - If the nationality is Canadian, research the CRA website and the IRS website to provide a response.\n\n            Answer:\n            "

def trulens_noctx_pre : String := "\n            You are an expert IRS tax assistant with a deep understanding of IRS guidelines and general U.S. tax laws.\n\n            QUESTION:\n            "

def trulens_noctx_tail : String := "\n\n            INSTRUCTIONS:\n            - Provide clear, concise, and authoritative answers.\n            - If relevant, recommend IRS forms or publications.\n\n            Answer:\n            "

namespace IRS_RAG

/-- The prompt assembly of src/appTrulens.py IRS_RAG.generate_completion: with
chunks (the Python if on the nonempty list), the context template around the
blank-line join of the chunk texts; without, the reduced template with no
context section. -/
def build_trulens_prompt (query : String) (context_response : List Chunk) : String :=
  if context_response.isEmpty then trulens_noctx_pre ++ query ++ trulens_noctx_tail
  else trulens_ctx_pre ++ String.intercalate chunkSep (context_response.map Chunk.CHUNK)
    ++ trulens_ctx_mid ++ query ++ trulens_ctx_tail

/-- src/appTrulens.py IRS_RAG.generate_completion: build the prompt and call
cortex complete; on failure return the fixed apology. -/
def generate_completion (svc : CompletionSvc) (model : String) (query : String)
    (context_response : List Chunk) : String :=
  match svc model (build_trulens_prompt query context_response) with
  | Except.ok r => r
  | Except.error _ => apology

/-- src/appTrulens.py IRS_RAG.retrieve_context: delegate to the retriever with
the session category value; the retriever is built with the default limit 3. -/
def retrieve_context (store : List Chunk) (category_value : String) (query : String) : List Chunk :=
  CortexSearchRetriever.retrieve query category_value 3 store

/-- src/appTrulens.py IRS_RAG.query: the full pipeline, always retrieving
before generating. -/
def query (svc : CompletionSvc) (store : List Chunk) (st : AppState) (q : String) : String :=
  generate_completion svc st.model_name q (retrieve_context store st.category_value q)

end IRS_RAG

/-! Concrete fixtures used by witnesses, counterexamples and failing-input
evaluations. -/

def failMsg : String := "service unavailable"

def svcFail : CompletionSvc := fun _ _ => Except.error failMsg

def ans0 : String := "The 2024 standard deduction depends on filing status."

def svcOk : CompletionSvc := fun _ _ => Except.ok ans0

def q0 : String := "What is the standard deduction?"

def m0 : String := "mistral-large2"

def st0 : AppState :=
  { model_name := m0, category_value := catALL, use_context := false,
    chat_history := [], slide_window := 5 }

def cat0 : String := "deductions"

def path0 : String := "pub501.pdf"

def chunkText0 : String := "Standard deduction amounts by filing status."

def c0 : Chunk := { CHUNK := chunkText0, RELATIVE_PATH := path0, CATEGORY := cat0 }

def turn0 : Turn := { role := roleUser, content := q0 }

def ctxHeader : String := "CONTEXT:"

def rw0 : String := "standard deduction condensed query"

/-- A state with one prior turn, so the rewrite stage runs. -/
def st1 : AppState := { st0 with chat_history := [turn0] }

/-- The windowed history seen inside the turn on st1: the prior turn plus the
freshly appended user turn. -/
def hist1 : List Turn := [turn0, { role := roleUser, content := q0 }]

/-- A completion service that succeeds on the condensation prompt over hist1
and fails on every other prompt: the rewrite succeeds while the responder's
final completion call fails. -/
def svcRwOnly : CompletionSvc := fun _ p =>
  if p = summary_prompt hist1 q0 then Except.ok rw0 else Except.error failMsg

/-! Claim theorems. -/

/-- Claim C9: the history snapshot handed to the query rewriter never exceeds
twice the configured window size after any sequence of appends (in fact it
never exceeds the window size itself). -/
theorem snapshot_length_le_twice_window (hist : List Turn) (W : Nat) :
    (get_chat_history hist W).length ≤ 2 * W := by
  simp only [get_chat_history, List.length_drop]
  omega

/-- Claim C4 counterexample: eleven raw appends to an initially empty stored
history leave eleven turns stored, more than twice the default window of 5 —
the stored sequence is never trimmed to any retention bound. -/
theorem stored_history_exceeds_bound :
    (List.foldl history_append [] (List.replicate 11 turn0)).length = 11
    ∧ ¬ ((List.foldl history_append [] (List.replicate 11 turn0)).length ≤ 2 * st0.slide_window) := by
  constructor <;> decide

/-- Claim C4 amended: each append adds the turn at the end of the stored list
and never trims, so the stored history grows by one on every append without
bound; only the snapshot get_chat_history is bounded, by the window size. -/
theorem history_append_grows_snapshot_bounded (h : List Turn) (t : Turn) (W : Nat) :
    history_append h t = h ++ [t]
    ∧ (history_append h t).length = h.length + 1
    ∧ (get_chat_history h W).length ≤ W := by
  refine ⟨rfl, by simp [history_append], ?_⟩
  simp only [get_chat_history, List.length_drop]
  omega

/-- Claim C5: both retrievers return identical results for any two query
strings — the lookup depends only on the category filter, the limit and the
store, never on the query text. -/
theorem retrieval_ignores_query (q1 q2 category : String)
    (store : Except String (List Chunk)) (rows : List Chunk) (limit : Nat) :
    get_similar_chunks_search_service store category q1
      = get_similar_chunks_search_service store category q2
    ∧ CortexSearchRetriever.retrieve q1 category limit rows
      = CortexSearchRetriever.retrieve q2 category limit rows :=
  ⟨rfl, rfl⟩

/-- Claim C6: with an empty history snapshot the retrieval query is the raw
question and the completion service is never consulted (the selection is
identical under any two services); with a nonempty snapshot it is the
summarizer's output on that history and question. -/
theorem retrieval_query_selection (svc svc2 : CompletionSvc) (model : String)
    (hist : List Turn) (q : String) :
    (hist = [] → retrieval_query svc model hist q = q
      ∧ retrieval_query svc model hist q = retrieval_query svc2 model hist q)
    ∧ (hist ≠ [] → retrieval_query svc model hist q
        = summarize_question_with_history svc model hist q) := by
  cases hist with
  | nil => exact And.intro (fun _ => And.intro rfl rfl) (fun h => absurd rfl h)
  | cons a l => exact And.intro (fun h => nomatch h) (fun _ => rfl)

/-- Claim C6 witness: concrete instances of both branches. -/
theorem retrieval_query_selection_witness :
    retrieval_query svcOk m0 [] q0 = q0
    ∧ retrieval_query svcOk m0 [turn0] q0
      = summarize_question_with_history svcOk m0 [turn0] q0 :=
  ⟨((retrieval_query_selection svcOk svcFail m0 [] q0).1 rfl).1,
   (retrieval_query_selection svcOk svcFail m0 [turn0] q0).2 (List.cons_ne_nil turn0 [])⟩

/-- Claim C8: if the completion call made by the query rewriter fails, the
rewriter returns the raw, unrewritten question (the turn proceeds with no
error propagated). -/
theorem summarize_failure_falls_back (svc : CompletionSvc) (model : String)
    (hist : List Turn) (q msg : String)
    (h : svc model (summary_prompt hist q) = Except.error msg) :
    summarize_question_with_history svc model hist q = q := by
  simp [summarize_question_with_history, h]

/-- Claim C8 witness: the always-failing service at a concrete history and
question falls back to the raw question. -/
theorem summarize_failure_falls_back_witness :
    summarize_question_with_history svcFail m0 [turn0] q0 = q0 :=
  summarize_failure_falls_back svcFail m0 [turn0] q0 failMsg rfl

/-- Claim C7: both retrievers return at most limit chunks (the limit is the
constant 3 in src/app.py), and under a non-ALL category filter every returned
chunk's CATEGORY equals the filter exactly. -/
theorem retrieval_cap_and_category (store : Except String (List Chunk))
    (rows : List Chunk) (category q : String) (limit : Nat) :
    (get_similar_chunks_search_service store category q).length ≤ 3
    ∧ (CortexSearchRetriever.retrieve q category limit rows).length ≤ limit
    ∧ (category ≠ catALL →
        (∀ c ∈ get_similar_chunks_search_service store category q, c.CATEGORY = category)
        ∧ ∀ c ∈ CortexSearchRetriever.retrieve q category limit rows, c.CATEGORY = category) := by
  refine ⟨?_, ?_, ?_⟩
  · cases store with
    | error e => simp [get_similar_chunks_search_service]
    | ok rows2 =>
      simp only [get_similar_chunks_search_service]
      split <;> exact List.length_take_le ..
  · simp only [CortexSearchRetriever.retrieve]
    split <;> exact List.length_take_le ..
  · intro hne
    constructor
    · intro c hc
      cases store with
      | error e => simp [get_similar_chunks_search_service] at hc
      | ok rows2 =>
        simp only [get_similar_chunks_search_service, if_neg hne] at hc
        have hmem := List.take_subset _ _ hc
        exact eq_of_beq (List.mem_filter.mp hmem).2
    · intro c hc
      simp only [CortexSearchRetriever.retrieve, if_neg hne] at hc
      have hmem := List.take_subset _ _ hc
      exact eq_of_beq (List.mem_filter.mp hmem).2

/-- Claim C7 witness: at a concrete non-ALL category, store and limit, both
parts of the guarantee evaluate on the single matching chunk. -/
theorem retrieval_cap_and_category_witness :
    (get_similar_chunks_search_service (Except.ok [c0]) cat0 q0).length ≤ 3
    ∧ c0.CATEGORY = cat0 :=
  ⟨(retrieval_cap_and_category (Except.ok [c0]) [c0] cat0 q0 2).1,
   ((retrieval_cap_and_category (Except.ok [c0]) [c0] cat0 q0 2).2.2 (by decide)).1
     c0 (by decide)⟩

/-- Claim C1 counterexample: with a completion service that always fails, the
main turn does return the fixed apology, yet the stored history length
changes — main appends the user turn and an assistant turn anyway. -/
theorem completion_failure_still_appends :
    (main_turn svcFail (Except.ok []) st0 q0).2.1 = apology
    ∧ (main_turn svcFail (Except.ok []) st0 q0).1.chat_history.length
      ≠ st0.chat_history.length := by
  constructor
  · rfl
  · decide

/-- Claim C1 amended: whenever the responder's completion call on the built
prompt fails — whatever the rewrite call did — the main turn returns the
fixed apology and appends both the user turn and an assistant turn carrying
the apology, so the stored history grows by exactly two turns (the spec's
length-unchanged guarantee does not hold; the appended assistant turn carries
the apology, not a malformed answer). -/
theorem completion_failure_apology_and_turns (svc : CompletionSvc)
    (store : Except String (List Chunk)) (st : AppState) (q msg : String)
    (h : svc (push_user st q).model_name
        (create_prompt svc store (push_user st q) q).1 = Except.error msg) :
    (main_turn svc store st q).2.1 = apology
    ∧ (main_turn svc store st q).1.chat_history
      = st.chat_history
        ++ [{ role := roleUser, content := q }, { role := roleAssistant, content := apology }] := by
  have h2 := h
  simp only [create_prompt, push_user] at h2
  simp [main_turn, answer_question, create_prompt, push_user, h2]

/-- Claim C1 amended, witness: a service that succeeds on the condensation
prompt but fails on the final prompt, on a state with one prior turn — the
rewrite succeeds (last conjunct) while the responder's completion call fails. -/
theorem completion_failure_apology_and_turns_witness :
    (main_turn svcRwOnly (Except.ok [c0]) st1 q0).2.1 = apology
    ∧ (main_turn svcRwOnly (Except.ok [c0]) st1 q0).1.chat_history
      = st1.chat_history
        ++ [{ role := roleUser, content := q0 }, { role := roleAssistant, content := apology }]
    ∧ summarize_question_with_history svcRwOnly st1.model_name hist1 q0 = rw0 :=
  ⟨(completion_failure_apology_and_turns svcRwOnly (Except.ok [c0]) st1 q0 failMsg
      (by rfl)).1,
   (completion_failure_apology_and_turns svcRwOnly (Except.ok [c0]) st1 q0 failMsg
      (by rfl)).2,
   by decide⟩

/-- Claim C10: when the completion call on the built prompt succeeds, the main
turn returns the service answer, appends the user turn then the assistant turn
to the stored history, and the returned related-document paths are exactly the
distinct RELATIVE_PATH values of the retrieved chunks (no duplicates, and a
path is returned iff some retrieved chunk carries it). -/
theorem success_returns_answer_paths_appends (svc : CompletionSvc)
    (store : Except String (List Chunk)) (st : AppState) (q ans : String)
    (h : svc (push_user st q).model_name
        (create_prompt svc store (push_user st q) q).1 = Except.ok ans) :
    (main_turn svc store st q).2.1 = ans
    ∧ (main_turn svc store st q).1.chat_history
      = st.chat_history
        ++ [{ role := roleUser, content := q }, { role := roleAssistant, content := ans }]
    ∧ (main_turn svc store st q).2.2.Nodup
    ∧ ∀ p, p ∈ (main_turn svc store st q).2.2
        ↔ ∃ c ∈ chunks_used svc store (push_user st q) q, c.RELATIVE_PATH = p := by
  have hmain : main_turn svc store st q
      = ({ push_user st q with
            chat_history := (push_user st q).chat_history
              ++ [{ role := roleAssistant, content := ans }] }, ans,
          ((chunks_used svc store (push_user st q) q).map Chunk.RELATIVE_PATH).dedup) := by
    have h2 := h
    simp only [create_prompt] at h2
    simp [main_turn, answer_question, create_prompt, h2]
  rw [hmain]
  refine ⟨rfl, ?_, List.nodup_dedup _, ?_⟩
  · simp [push_user]
  · intro p
    simp [List.mem_dedup, List.mem_map]

/-- Claim C10 witness: a concrete succeeding service on the empty-history
state with a one-chunk store. -/
theorem success_returns_answer_paths_appends_witness :
    (main_turn svcOk (Except.ok [c0]) st0 q0).2.1 = ans0
    ∧ (main_turn svcOk (Except.ok [c0]) st0 q0).1.chat_history
      = st0.chat_history
        ++ [{ role := roleUser, content := q0 }, { role := roleAssistant, content := ans0 }] :=
  ⟨(success_returns_answer_paths_appends svcOk (Except.ok [c0]) st0 q0 ans0 rfl).1,
   (success_returns_answer_paths_appends svcOk (Except.ok [c0]) st0 q0 ans0 rfl).2.1⟩

/-- Claim C2, evaluated at the failing input: the configuration state has
use_context = false, yet with a one-chunk store both pipelines still invoke
the retriever (the chunk list passed onward is the nonempty retrieved list),
and the prompt built by src/app.py carries the CONTEXT section — neither
pipeline ever consults the flag. -/
theorem use_context_false_still_retrieves :
    st0.use_context = false
    ∧ chunks_used svcFail (Except.ok [c0]) st0 q0 = [c0]
    ∧ IRS_RAG.retrieve_context [c0] st0.category_value q0 = [c0]
    ∧ ctxHeader.data <:+: ((create_prompt svcFail (Except.ok [c0]) st0 q0).1).data := by
  refine ⟨rfl, rfl, rfl, ?_⟩
  decide

/-- Claim C3 counterexample: src/app.py create_prompt on an empty retrieved
chunk list (empty store) still renders the CONTEXT header, so the produced
prompt is not free of a context section when the chunk list is empty. -/
theorem empty_chunks_prompt_has_context_header :
    chunks_used svcFail (Except.ok []) st0 q0 = []
    ∧ ctxHeader.data <:+: ((create_prompt svcFail (Except.ok []) st0 q0).1).data := by
  refine ⟨rfl, ?_⟩
  decide

/-- Claim C3 amended: the prompt builder of src/appTrulens.py
IRS_RAG.generate_completion is a pure function of the question and chunk
pair and branches as claimed — on an empty chunk list it renders the reduced
template whose fixed parts contain no CONTEXT header, and on a nonempty chunk
list the blank-line join of all chunk texts is embedded contiguously
(boundaries preserved by the separator); src/app.py create_prompt instead
renders the CONTEXT header unconditionally. -/
theorem trulens_prompt_branches (query : String) (chunks : List Chunk) :
    IRS_RAG.build_trulens_prompt query [] = trulens_noctx_pre ++ query ++ trulens_noctx_tail
    ∧ ¬ (ctxHeader.data <:+: trulens_noctx_pre.data)
    ∧ ¬ (ctxHeader.data <:+: trulens_noctx_tail.data)
    ∧ (chunks ≠ [] →
        (String.intercalate chunkSep (chunks.map Chunk.CHUNK)).data
          <:+: (IRS_RAG.build_trulens_prompt query chunks).data) := by
  refine ⟨rfl, by decide, by decide, ?_⟩
  intro hne
  have hempty : chunks.isEmpty = false := by
    cases chunks with
    | nil => exact absurd rfl hne
    | cons a l => rfl
  simp only [IRS_RAG.build_trulens_prompt, hempty, Bool.false_eq_true, if_false]
  refine ⟨trulens_ctx_pre.data,
    (trulens_ctx_mid ++ query ++ trulens_ctx_tail).data, ?_⟩
  simp [String.data_append]

/-- Claim C3 amended, witness: the single-chunk instance of the nonempty
branch. -/
theorem trulens_prompt_branches_witness :
    (String.intercalate chunkSep ([c0].map Chunk.CHUNK)).data
      <:+: (IRS_RAG.build_trulens_prompt q0 [c0]).data :=
  (trulens_prompt_branches q0 [c0]).2.2.2 (List.cons_ne_nil c0 [])
